import Mathlib

/-
  Verification development for `anticsrf.py` (catb0t/anticsrf).

  Shallow embedding notes:
  * Python `dict<str, int>` is modelled by an insertion-ordered association
    list `Dict := List (String × Int)`; assignment updates the first
    occurrence in place, a new key is appended, matching CPython semantics.
  * Python exceptions with side effects are modelled by an explicit result
    type `Res σ α` that carries the instance state both on normal return and
    at the instant an exception is raised, since mutations performed before
    a raise persist in Python.
  * The clock (`microtime()`) is passed in as an explicit `now : Int`
    argument; the key generator (`self.keyfunc`) is passed as an explicit
    function `Nat → σ → String × σ` threading its private state `σ`
    (for `keyfun_r` the static `index`, for `random_key` no state).
  * `token_clerk.__init__` stores the mutex under the attribute name
    "Lock"; every method body reads `self.lock`.  Attribute lookup is
    modelled by the literal list of attribute names the constructor
    defines, and `withLock` embeds `with self.lock:`, which in Python
    raises AttributeError because "lock" is not among them.
-/

/-- Ordered association list standing for a Python `dict<str, int>`. -/
abbrev Dict : Type := List (String × Int)

/-- `d[k] = v`: replace the first binding of `k` in place, else append. -/
def dinsert : Dict → String → Int → Dict
  | [], k, v => [(k, v)]
  | p :: ps, k, v => if p.1 = k then (k, v) :: ps else p :: dinsert ps k v

/-- `del d[k]`: drop the binding of `k` (keys are unique by construction). -/
def ddel : Dict → String → Dict
  | [], _ => []
  | p :: ps, k => if p.1 = k then ps else p :: ddel ps k

/-- `d.get(k)`: first binding of `k`, if any. -/
def dget? : Dict → String → Option Int
  | [], _ => none
  | p :: ps, k => if p.1 = k then some p.2 else dget? ps k

/-- `k in d`. -/
def dmemb (d : Dict) (k : String) : Bool :=
  (dget? d k).isSome

/-- `d.update(u)`: fold the bindings of `u` into `d` left to right. -/
def dupdate (d u : Dict) : Dict :=
  u.foldl (fun acc p => dinsert acc p.1 p.2) d

/-- `dict(pairs)`: build a fresh dict from a pair sequence. -/
def dictOf (u : Dict) : Dict :=
  dupdate [] u

/-- Stable insertion of a pair into a value-sorted list (ties keep order). -/
def insByVal (p : String × Int) : Dict → Dict
  | [] => [p]
  | q :: qs => if q.2 ≤ p.2 then q :: insByVal p qs else p :: q :: qs

/-- `sorted(d.items(), key=lambda x: x[1])`: stable sort by value. -/
def sortByVal : Dict → Dict
  | [] => []
  | p :: ps => insByVal p (sortByVal ps)

/-- The Python exceptions the embedded code can raise. -/
inductive PyErr where
  | attributeError
  | typeError
  | valueError
deriving DecidableEq

/-- An argument that is either a token string or some non-string object
(the only distinction `unregister`'s type check observes). -/
inductive PyTok where
  | str (s : String)
  | nonstr
deriving DecidableEq

def PyTok.isStr : PyTok → Bool
  | .str _ => true
  | .nonstr => false

/-- A Python value stored in the info dict (`bool` or `int`). -/
inductive PyVal where
  | pb (b : Bool)
  | pi (i : Int)
deriving DecidableEq

/-- The dict returned by `is_valid`: keys "reg", "exp", "old". -/
structure Info where
  reg : Bool
  exp : Int
  old : Bool
deriving DecidableEq

/-- `info.items()` in insertion order, as (key, value) pairs. -/
def infoItems (i : Info) : List (String × PyVal) :=
  [("reg", .pb i.reg), ("exp", .pi i.exp), ("old", .pb i.old)]

/-- The dict returned by `_register`: keys "tok", "iat", "exp". -/
structure RegRecord where
  tok : String
  iat : Int
  exp : Int
deriving DecidableEq

/-- `DEFAULT_EXPIRY = (10**6) * 60 * 60` (1 hour in microseconds). -/
def DEFAULT_EXPIRY : Int := (10 ^ 6) * 60 * 60

/-- A key generator: from the requested size and the generator's private
state to the produced string and updated state. -/
abbrev KeyGen (σ : Type) : Type := Nat → σ → String × σ

/-- Instance state of a `token_clerk`: the two registries and the
configuration set by `__init__`, plus the key generator's private state. -/
structure token_clerk (σ : Type) where
  current_tokens : Dict
  expired_tokens : Dict
  expire_after : Int
  keysize : Nat
  genst : σ
deriving DecidableEq

/-- Result of running a method body: normal return or a raised exception,
in both cases together with the instance state at that moment. -/
inductive Res (σ : Type) (α : Type) where
  | ok (val : α) (st : token_clerk σ)
  | err (e : PyErr) (st : token_clerk σ)
deriving DecidableEq

/-- The instance state a `Res` carries, whether ok or raised. -/
def Res.stOf : Res σ α → token_clerk σ
  | .ok _ t => t
  | .err _ t => t

/-- Does the result consist of a raised AttributeError? -/
def Res.isAttrErr : Res σ α → Bool
  | .err .attributeError _ => true
  | _ => false

namespace token_clerk

/-- The instance attribute names `__init__` defines, in order
(`self.current_tokens`, ..., `self.Lock = threading.Lock()`). -/
def attrs : List String :=
  ["current_tokens", "expired_tokens", "expire_after", "keysize",
   "keyfunc", "Lock"]

/-- `__init__(preset_tokens, expire_after, keysize, ...)`:
`current_tokens = dict(preset_tokens)`, `expired_tokens = dict()`. -/
def init (preset : Dict) (ea : Int) (ks : Nat) (g0 : σ) : token_clerk σ :=
  { current_tokens := dictOf preset
    expired_tokens := []
    expire_after := ea
    keysize := ks
    genst := g0 }

/-- `with self.lock:` — attribute lookup of "lock" on the instance; the
constructor only ever defined "Lock", so this raises AttributeError. -/
def withLock (s : token_clerk σ) : Res σ Unit :=
  if attrs.contains "lock" then .ok () s else .err .attributeError s

/-- `_clear_expired_kept(trash)`: sort kept-expired by value, then under
the lock rebind `self.expired_tokens = dict(stoks[trash:])`. -/
def _clear_expired_kept (s : token_clerk σ) (trash : Nat) : Res σ Unit :=
  let stoks := sortByVal s.expired_tokens
  match withLock s with
  | .err e t => .err e t
  | .ok _ t => .ok () { t with expired_tokens := dictOf (stoks.drop trash) }

/-- `_log_expired_tokens(tokens)`: `_clear_expired_kept(trash=len(tokens))`
then, under the lock, `self.expired_tokens.update(tokens)`. -/
def _log_expired_tokens (s : token_clerk σ) (tokens : Dict) : Res σ Unit :=
  match _clear_expired_kept s tokens.length with
  | .err e t => .err e t
  | .ok _ t =>
    match withLock t with
    | .err e u => .err e u
    | .ok _ u => .ok () { u with expired_tokens := dupdate u.expired_tokens tokens }

/-- `_register(tok, expire_after)`: default the TTL, fail fast on a length
mismatch, compute `exp = now + expire_after`, insert under the lock and
return `{"tok": tok, "iat": now, "exp": exp}`. -/
def _register (s : token_clerk σ) (tok : String) (ea? : Option Int)
    (now : Int) : Res σ RegRecord :=
  let ea := ea?.getD s.expire_after
  if tok.length ≠ s.keysize then .err .valueError s
  else
    let exp := now + ea
    match withLock s with
    | .err e t => .err e t
    | .ok _ t =>
      .ok { tok := tok, iat := now, exp := exp }
        { t with current_tokens := dinsert t.current_tokens tok exp }

/-- The `for tok, exp in copyitems:` loop of `clean_expired`: each entry
with `now >= exp` is recorded in the local `expire` dict and deleted from
`current_tokens`, both under the lock. -/
def cleanLoop (now : Int) : List (String × Int) → Dict → token_clerk σ → Res σ Dict
  | [], expire, s => .ok expire s
  | p :: ps, expire, s =>
    if now ≥ p.2 then
      match withLock s with
      | .err e t => .err e t
      | .ok _ t =>
        cleanLoop now ps (dinsert expire p.1 p.2)
          { t with current_tokens := ddel t.current_tokens p.1 }
    else cleanLoop now ps expire s

/-- `clean_expired()`: return 0 on an empty registry, otherwise relocate
every timed-out entry, log the relocated dict, and return the absolute
difference of the registry sizes. -/
def clean_expired (s : token_clerk σ) (now : Int) : Res σ Nat :=
  let plen := s.current_tokens.length
  if plen = 0 then .ok 0 s
  else
    match cleanLoop now s.current_tokens [] s with
    | .err e t => .err e t
    | .ok expire t =>
      match _log_expired_tokens t expire with
      | .err e u => .err e u
      | .ok _ u => .ok ((u.current_tokens.length - (plen : Int)).natAbs) u

/-- `is_valid(tok, clean)`: optionally sweep, then look the token up first
in `current_tokens`, then in `expired_tokens`, defaulting to
`{"reg": False, "exp": 0, "old": False}`.  (The source's dispatch on
dict/tuple/list/set arguments does not apply to string tokens.) -/
def is_valid (s : token_clerk σ) (tok : String) (clean : Bool)
    (now : Int) : Res σ Info :=
  match (if clean then clean_expired s now else .ok 0 s) with
  | .err e t => .err e t
  | .ok _ t =>
    match dget? t.current_tokens tok with
    | some e => .ok { reg := true, exp := e, old := false } t
    | none =>
      match dget? t.expired_tokens tok with
      | some e => .ok { reg := false, exp := e, old := true } t
      | none => .ok { reg := false, exp := 0, old := false } t

/-- One step of `are_valid`'s dict comprehension
`{tok: inf for tok, inf in (self.is_valid(token).items() for token in tokens)}`:
each element of the outer generator is `self.is_valid(token).items()`
(a three-pair view, since `is_valid` is called with its default
`clean=True`), which the comprehension then unpacks into the two targets
`tok, inf` — exactly two items succeed, any other count raises ValueError. -/
def avLoop (now : Int) :
    List String → List ((String × PyVal) × (String × PyVal)) → token_clerk σ →
    Res σ (List ((String × PyVal) × (String × PyVal)))
  | [], acc, s => .ok acc s
  | token :: ts, acc, s =>
    match is_valid s token true now with
    | .err e t => .err e t
    | .ok info t =>
      match infoItems info with
      | [kv1, kv2] => avLoop now ts (acc ++ [(kv1, kv2)]) t
      | _ => .err .valueError t

/-- `are_valid(*tokens, clean)`: optionally sweep once, then run the
comprehension over the tokens. -/
def are_valid (s : token_clerk σ) (tokens : List String) (clean : Bool)
    (now : Int) : Res σ (List ((String × PyVal) × (String × PyVal))) :=
  match (if clean then clean_expired s now else .ok 0 s) with
  | .err e t => .err e t
  | .ok _ t => avLoop now tokens [] t

/-- The `for t in tokens:` loop of `unregister`: a token found in
`current_tokens` bumps the count, is recorded in the local `expire` dict,
and is deleted under the lock. -/
def unregLoop : List PyTok → Nat → Dict → token_clerk σ → Res σ (Nat × Dict)
  | [], expd, expire, s => .ok (expd, expire) s
  | t :: ts, expd, expire, s =>
    match t with
    | .str tok =>
      match dget? s.current_tokens tok with
      | some v =>
        let expd := expd + 1
        let expire := dinsert expire tok v
        match withLock s with
        | .err e u => .err e u
        | .ok _ u =>
          unregLoop ts expd expire
            { u with current_tokens := ddel u.current_tokens tok }
      | none => unregLoop ts expd expire s
    | .nonstr => unregLoop ts expd expire s

/-- `unregister(*tokens, clr, clean)`: with `clr` truthy, empty the whole
registry under the lock (logging a copy first) and return its prior size;
otherwise optionally sweep, return early on no tokens, type-check that
every token is a string (else TypeError), remove the named live tokens and
log them, returning the total count. -/
def unregister (s : token_clerk σ) (tokens : List PyTok) (clr clean : Bool)
    (now : Int) : Res σ Nat :=
  if clr then
    let expd := s.current_tokens.length
    match withLock s with
    | .err e t => .err e t
    | .ok _ t =>
      match _log_expired_tokens t t.current_tokens with
      | .err e u => .err e u
      | .ok _ u => .ok expd { u with current_tokens := [] }
  else
    match (if clean then clean_expired s now else .ok 0 s) with
    | .err e t => .err e t
    | .ok expd t =>
      if tokens.isEmpty then .ok expd t
      else if ¬ tokens.all PyTok.isStr then .err .typeError t
      else
        match unregLoop tokens expd [] t with
        | .err e u => .err e u
        | .ok (expd, expire) u =>
          match _log_expired_tokens u expire with
          | .err e v => .err e v
          | .ok _ v => .ok expd v

/-- The `for tok in tokens:` loop of `unexpire`: `is_valid(tok)` (with its
default `clean=True`), and when the token is old and not registered,
`_register` it again and delete it from `expired_tokens` under the lock. -/
def unexpLoop (ea now : Int) :
    List String → List (String × RegRecord) → token_clerk σ →
    Res σ (List (String × RegRecord))
  | [], res, s => .ok res s
  | tok :: ts, res, s =>
    match is_valid s tok true now with
    | .err e t => .err e t
    | .ok info t =>
      if info.old && !info.reg then
        match _register t tok (some ea) now with
        | .err e u => .err e u
        | .ok r u =>
          let res := res ++ [(tok, r)]
          match withLock u with
          | .err e v => .err e v
          | .ok _ v =>
            unexpLoop ea now ts res
              { v with expired_tokens := ddel v.expired_tokens tok }
      else unexpLoop ea now ts res t

/-- `unexpire(*tokens, expire_after)`: default the TTL to the instance's,
then run the revival loop, returning the dict of re-registered tokens. -/
def unexpire (s : token_clerk σ) (tokens : List String) (ea? : Option Int)
    (now : Int) : Res σ (List (String × RegRecord)) :=
  let ea := ea?.getD s.expire_after
  unexpLoop ea now tokens [] s

/-- `register_new(clean)`: optionally sweep, call
`self.keyfunc(self.keysize)` (advancing the generator's private state),
and `_register` the produced token. -/
def register_new (s : token_clerk σ) (kf : KeyGen σ) (clean : Bool)
    (now : Int) : Res σ RegRecord :=
  match (if clean then clean_expired s now else .ok 0 s) with
  | .err e t => .err e t
  | .ok _ t =>
    let kr := kf t.keysize t.genst
    let t2 := { t with genst := kr.2 }
    _register t2 kr.1 none now

end token_clerk

/-- `string.ascii_lowercase`, the default alphabet of `keyfun_r`. -/
def ascii_lowercase : String := "abcdefghijklmnopqrstuvwxyz"

/-- `keyfun_r(keysize)`: the deterministic reentrant generator slicing a
cyclic alphabet; its static `index` is threaded explicitly.  (For
`keysize = 0` the source resets the index and returns None; the embedding
returns the empty string there, a case no claim exercises.) -/
def keyfun_r (keysize : Nat) (index : Nat) : String × Nat :=
  if keysize = 0 then ("", 0)
  else if index + keysize ≥ ascii_lowercase.length then
    (String.mk (ascii_lowercase.toList.drop index), 0)
  else
    (String.mk ((ascii_lowercase.toList.drop index).take keysize),
      index + keysize)

/-- A hex digit as produced by `binascii.hexlify` (lowercase). -/
def hexdigit (n : Nat) : Char :=
  "0123456789abcdef".toList.getD n 'x'

/-- The two hex characters encoding one byte. -/
def hexByte (b : Nat) : List Char :=
  [hexdigit (b / 16 % 16), hexdigit (b % 16)]

/-- `hexlify(bs).decode("ascii")`: two hex characters per byte. -/
def hexlify (bs : List Nat) : String :=
  String.mk (bs.foldr (fun b acc => hexByte b ++ acc) [])

/-- `random_key(keysize)`: hex-encode `keysize // 2` bytes drawn from the
entropy source (`os.urandom`), which is passed explicitly as a function
returning the requested number of bytes. -/
def random_key (urand : Nat → List Nat) (keysize : Nat) : String :=
  hexlify (urand (keysize / 2))

/-- A concrete entropy source honouring the `os.urandom` contract
(returns exactly the requested number of bytes). -/
def urandZeros (k : Nat) : List Nat :=
  List.replicate k 0

/-- The observable pair of registries of an instance
(`current_tokens`, `expired_tokens`). -/
def mapsOf (s : token_clerk σ) : Dict × Dict :=
  (s.current_tokens, s.expired_tokens)

/-- A public operation on a `token_clerk`, carrying the method's arguments
and the clock reading (`microtime()`) it observes. -/
inductive Op where
  | opRegister (clean : Bool) (now : Int)
  | opUnregister (tokens : List PyTok) (clr : Bool) (clean : Bool) (now : Int)
  | opClean (now : Int)
  | opValid (tok : String) (clean : Bool) (now : Int)
  | opUnexpire (tokens : List String) (ea? : Option Int) (now : Int)

/-- The instance state after running one public operation: Python keeps
every mutation performed up to the instant an exception is raised, so the
post-state is read off the result whether it is `ok` or `err`. -/
def stepState (kf : KeyGen σ) (s : token_clerk σ) : Op → token_clerk σ
  | .opRegister clean now => (token_clerk.register_new s kf clean now).stOf
  | .opUnregister tokens clr clean now =>
    (token_clerk.unregister s tokens clr clean now).stOf
  | .opClean now => (token_clerk.clean_expired s now).stOf
  | .opValid tok clean now => (token_clerk.is_valid s tok clean now).stOf
  | .opUnexpire tokens ea? now => (token_clerk.unexpire s tokens ea? now).stOf

/-- The instance state after a whole sequence of public operations. -/
def runOps (kf : KeyGen σ) (s : token_clerk σ) : List Op → token_clerk σ
  | [] => s
  | op :: ops => runOps kf (stepState kf s op) ops

/-- Modelled from the spec: the result `validate` is specified to return —
if the token is present in `live`, `{registered: true, expires_at: <its
timestamp>, previously_valid: false}`; else if present in `expired`,
`{registered: false, expires_at: <its timestamp>, previously_valid: true}`;
else `{registered: false, expires_at: 0, previously_valid: false}`. -/
def validate_spec (s : token_clerk σ) (tok : String) : Info :=
  match dget? s.current_tokens tok with
  | some e => { reg := true, exp := e, old := false }
  | none =>
    match dget? s.expired_tokens tok with
    | some e => { reg := false, exp := e, old := true }
    | none => { reg := false, exp := 0, old := false }

/-- A fresh clerk as built by `token_clerk(keyfunc=keyfun_r, keysize=2)`:
no presets, default TTL, the deterministic generator starting at index 0. -/
def clerkC1 : token_clerk Nat := token_clerk.init [] DEFAULT_EXPIRY 2 0

/-- A fresh clerk with `keysize=2`, used to instantiate C2's statement. -/
def clerkC2w : token_clerk Nat := token_clerk.init [] DEFAULT_EXPIRY 2 0

/-- A clerk holding one live token, as reached by presetting `{"a": 1}`. -/
def exC2clean : token_clerk Nat :=
  { current_tokens := [("a", 1)], expired_tokens := [],
    expire_after := DEFAULT_EXPIRY, keysize := 42, genst := 0 }

/-- A clerk with an empty live map and one kept-expired token of the
configured length. -/
def exC2unexp : token_clerk Nat :=
  { current_tokens := [], expired_tokens := [("ab", 5)],
    expire_after := 100, keysize := 2, genst := 0 }

/-- A clerk holding one live token (preset `{"a": 1}`, default config). -/
def clerkC5 : token_clerk Nat :=
  { current_tokens := [("a", 1)], expired_tokens := [],
    expire_after := DEFAULT_EXPIRY, keysize := 42, genst := 0 }

/-- A fresh clerk with the default configuration. -/
def clerkC6 : token_clerk Nat := token_clerk.init [] DEFAULT_EXPIRY 42 0

/-- A clerk holding one live token (preset `{"a": 1}`, default config). -/
def exC7 : token_clerk Nat :=
  { current_tokens := [("a", 1)], expired_tokens := [],
    expire_after := DEFAULT_EXPIRY, keysize := 42, genst := 0 }

/-- A clerk with an empty live map and one kept-expired token of the
configured length. -/
def exC8 : token_clerk Nat :=
  { current_tokens := [], expired_tokens := [("ab", 5)],
    expire_after := 100, keysize := 2, genst := 0 }

/-- A clerk whose expired map already holds 30 kept-expired entries
(expiry timestamps 0..29), so logging even one more expired entry would
exceed the claimed retention bound. -/
def exC4 : token_clerk Nat :=
  { current_tokens := [],
    expired_tokens := (List.range 30).map (fun i => (toString i, (i : Int))),
    expire_after := DEFAULT_EXPIRY, keysize := 42, genst := 0 }

/-- A clerk holding one live token expiring at time 1. -/
def exC10 : token_clerk Nat :=
  { current_tokens := [("a", 1)], expired_tokens := [],
    expire_after := DEFAULT_EXPIRY, keysize := 42, genst := 0 }

theorem withLock_eq (s : token_clerk σ) :
    token_clerk.withLock s = .err .attributeError s := rfl

theorem clear_eq (s : token_clerk σ) (trash : Nat) :
    token_clerk._clear_expired_kept s trash = .err .attributeError s := rfl

theorem log_eq (s : token_clerk σ) (tokens : Dict) :
    token_clerk._log_expired_tokens s tokens = .err .attributeError s := rfl

theorem register_cases (s : token_clerk σ) (tok : String) (ea? : Option Int)
    (now : Int) :
    token_clerk._register s tok ea? now = .err .valueError s ∨
    token_clerk._register s tok ea? now = .err .attributeError s := by
  unfold token_clerk._register
  by_cases h : tok.length ≠ s.keysize
  · left; simp [h]
  · right; simp [h, withLock_eq]

theorem register_attr (s : token_clerk σ) (tok : String) (ea? : Option Int)
    (now : Int) (h : tok.length = s.keysize) :
    token_clerk._register s tok ea? now = .err .attributeError s := by
  unfold token_clerk._register
  simp [h, withLock_eq]

theorem cleanLoop_cases (now : Int) (l : List (String × Int)) (e : Dict)
    (s : token_clerk σ) :
    token_clerk.cleanLoop now l e s = .ok e s ∨
    token_clerk.cleanLoop now l e s = .err .attributeError s := by
  induction l generalizing e with
  | nil => left; rfl
  | cons p ps ih =>
    by_cases h : now ≥ p.2
    · right; simp [token_clerk.cleanLoop, h, withLock_eq]
    · simpa [token_clerk.cleanLoop, h] using ih e

theorem clean_err (s : token_clerk σ) (now : Int)
    (h : s.current_tokens.length ≠ 0) :
    token_clerk.clean_expired s now = .err .attributeError s := by
  unfold token_clerk.clean_expired
  rcases cleanLoop_cases now s.current_tokens [] s with hc | hc
  · simp [h, hc, log_eq]
  · simp [h, hc]

theorem clean_cases (s : token_clerk σ) (now : Int) :
    token_clerk.clean_expired s now = .ok 0 s ∨
    token_clerk.clean_expired s now = .err .attributeError s := by
  by_cases h : s.current_tokens.length = 0
  · left; unfold token_clerk.clean_expired; simp [h]
  · right; exact clean_err s now h

theorem is_valid_cases (s : token_clerk σ) (tok : String) (clean : Bool)
    (now : Int) :
    token_clerk.is_valid s tok clean now = .err .attributeError s ∨
    ∃ i, token_clerk.is_valid s tok clean now = .ok i s := by
  unfold token_clerk.is_valid
  have hsw : (if clean then token_clerk.clean_expired s now else .ok 0 s) = .ok 0 s ∨
      (if clean then token_clerk.clean_expired s now else .ok 0 s) = .err .attributeError s := by
    cases clean
    · left; rfl
    · simpa using clean_cases s now
  rcases hsw with h | h
  · rw [h]
    cases h1 : dget? s.current_tokens tok with
    | some v =>
      right
      exact ⟨{ reg := true, exp := v, old := false }, by simp [h1]⟩
    | none =>
      cases h2 : dget? s.expired_tokens tok with
      | some v =>
        right
        exact ⟨{ reg := false, exp := v, old := true }, by simp [h1, h2]⟩
      | none =>
        right
        exact ⟨{ reg := false, exp := 0, old := false }, by simp [h1, h2]⟩
  · rw [h]
    left; rfl

theorem stOf_is_valid (s : token_clerk σ) (tok : String) (clean : Bool)
    (now : Int) :
    (token_clerk.is_valid s tok clean now).stOf = s := by
  rcases is_valid_cases s tok clean now with h | ⟨i, h⟩ <;> simp [h, Res.stOf]

theorem unexpLoop_stOf (ea now : Int) (ts : List String)
    (res : List (String × RegRecord)) (s : token_clerk σ) :
    (token_clerk.unexpLoop ea now ts res s).stOf = s := by
  induction ts generalizing res with
  | nil => rfl
  | cons tok ts ih =>
    unfold token_clerk.unexpLoop
    rcases is_valid_cases s tok true now with h | ⟨i, h⟩
    · simp [h, Res.stOf]
    · rw [h]
      by_cases hrev : i.old && !i.reg
      · simp only [hrev, if_true]
        rcases register_cases s tok (some ea) now with hr | hr <;>
          simp [hr, Res.stOf]
      · simp only [hrev, if_false]
        exact ih res

theorem unexpire_stOf (s : token_clerk σ) (tokens : List String)
    (ea? : Option Int) (now : Int) :
    (token_clerk.unexpire s tokens ea? now).stOf = s :=
  unexpLoop_stOf _ now tokens [] s

theorem unregLoop_stOf (ts : List PyTok) (expd : Nat) (expire : Dict)
    (s : token_clerk σ) :
    (token_clerk.unregLoop ts expd expire s).stOf = s ∧
    ((token_clerk.unregLoop ts expd expire s) = .err .attributeError s ∨
     ∃ r, token_clerk.unregLoop ts expd expire s = .ok r s) := by
  induction ts generalizing expd expire with
  | nil => exact ⟨rfl, Or.inr ⟨_, rfl⟩⟩
  | cons t ts ih =>
    unfold token_clerk.unregLoop
    cases t with
    | str tok =>
      cases h : dget? s.current_tokens tok with
      | some v => constructor <;> simp [h, withLock_eq, Res.stOf]
      | none => simpa [h] using ih expd expire
    | nonstr => exact ih expd expire

theorem unregister_stOf (s : token_clerk σ) (tokens : List PyTok)
    (clr clean : Bool) (now : Int) :
    (token_clerk.unregister s tokens clr clean now).stOf = s := by
  unfold token_clerk.unregister
  by_cases hclr : clr
  · simp [hclr, withLock_eq, Res.stOf]
  · simp only [hclr, if_false]
    have hsw : (if clean then token_clerk.clean_expired s now else .ok 0 s) = .ok 0 s ∨
        (if clean then token_clerk.clean_expired s now else .ok 0 s) = .err .attributeError s := by
      cases clean
      · left; rfl
      · simpa using clean_cases s now
    rcases hsw with h | h <;> rw [h]
    · by_cases he : tokens.isEmpty
      · simp [he, Res.stOf]
      · simp only [he, if_false]
        by_cases hall : tokens.all PyTok.isStr
        · simp only [hall, not_true, if_false]
          rcases (unregLoop_stOf tokens 0 [] s).2 with hu | ⟨r, hu⟩
          · simp [hu, Res.stOf]
          · simp [hu, log_eq, Res.stOf]
        · simp [hall, Res.stOf]
    · rfl

theorem avLoop_stOf (now : Int) (ts : List String)
    (acc : List ((String × PyVal) × (String × PyVal))) (s : token_clerk σ) :
    (token_clerk.avLoop now ts acc s).stOf = s := by
  induction ts generalizing acc with
  | nil => rfl
  | cons tok ts ih =>
    unfold token_clerk.avLoop
    rcases is_valid_cases s tok true now with h | ⟨i, h⟩
    · simp [h, Res.stOf]
    · rw [h]
      simp [infoItems, Res.stOf]

theorem are_valid_stOf (s : token_clerk σ) (tokens : List String)
    (clean : Bool) (now : Int) :
    (token_clerk.are_valid s tokens clean now).stOf = s := by
  unfold token_clerk.are_valid
  have hsw : (if clean then token_clerk.clean_expired s now else .ok 0 s) = .ok 0 s ∨
      (if clean then token_clerk.clean_expired s now else .ok 0 s) = .err .attributeError s := by
    cases clean
    · left; rfl
    · simpa using clean_cases s now
  rcases hsw with h | h <;> rw [h]
  · exact avLoop_stOf now tokens [] s
  · rfl

theorem clean_stOf (s : token_clerk σ) (now : Int) :
    (token_clerk.clean_expired s now).stOf = s := by
  rcases clean_cases s now with h | h <;> simp [h, Res.stOf]

theorem register_new_maps (s : token_clerk σ) (kf : KeyGen σ) (clean : Bool)
    (now : Int) :
    mapsOf (token_clerk.register_new s kf clean now).stOf = mapsOf s := by
  unfold token_clerk.register_new
  have hsw : (if clean then token_clerk.clean_expired s now else .ok 0 s) = .ok 0 s ∨
      (if clean then token_clerk.clean_expired s now else .ok 0 s) = .err .attributeError s := by
    cases clean
    · left; rfl
    · simpa using clean_cases s now
  rcases hsw with h | h <;> rw [h]
  · rcases register_cases { s with genst := (kf s.keysize s.genst).2 }
        (kf s.keysize s.genst).1 none now with hr | hr <;>
      simp [hr, Res.stOf, mapsOf]
  · rfl

theorem stepState_maps (kf : KeyGen σ) (s : token_clerk σ) (op : Op) :
    mapsOf (stepState kf s op) = mapsOf s := by
  cases op with
  | opRegister clean now => exact register_new_maps s kf clean now
  | opUnregister tokens clr clean now => simp [stepState, unregister_stOf]
  | opClean now => simp [stepState, clean_stOf]
  | opValid tok clean now => simp [stepState, stOf_is_valid]
  | opUnexpire tokens ea? now => simp [stepState, unexpire_stOf]

theorem runOps_maps (kf : KeyGen σ) (s : token_clerk σ) (ops : List Op) :
    mapsOf (runOps kf s ops) = mapsOf s := by
  induction ops generalizing s with
  | nil => rfl
  | cons op ops ih => rw [runOps, ih, stepState_maps]

theorem runOps_expired_init (kf : KeyGen σ) (preset : Dict) (ea : Int)
    (ks : Nat) (g0 : σ) (ops : List Op) :
    (runOps kf (token_clerk.init preset ea ks g0) ops).expired_tokens = [] := by
  have h := runOps_maps kf (token_clerk.init preset ea ks g0) ops
  have h2 := congrArg Prod.snd h
  simpa [mapsOf, token_clerk.init] using h2

theorem register_new_attr (s : token_clerk σ) (kf : KeyGen σ) (clean : Bool)
    (now : Int) (hlen : (kf s.keysize s.genst).1.length = s.keysize) :
    (token_clerk.register_new s kf clean now).isAttrErr = true := by
  unfold token_clerk.register_new
  have hsw : (if clean then token_clerk.clean_expired s now else .ok 0 s) = .ok 0 s ∨
      (if clean then token_clerk.clean_expired s now else .ok 0 s) = .err .attributeError s := by
    cases clean
    · left; rfl
    · simpa using clean_cases s now
  rcases hsw with hc | hc <;> rw [hc]
  · show (token_clerk._register { s with genst := (kf s.keysize s.genst).2 }
        (kf s.keysize s.genst).1 none now).isAttrErr = true
    rw [register_attr { s with genst := (kf s.keysize s.genst).2 }
        (kf s.keysize s.genst).1 none now hlen]
    rfl
  · rfl

theorem unexpire_attr (s : token_clerk σ) (tok : String) (ea? : Option Int)
    (now : Int) (hemp : s.current_tokens.isEmpty = true)
    (hmem : dmemb s.expired_tokens tok = true)
    (hlen : tok.length = s.keysize) :
    (token_clerk.unexpire s [tok] ea? now).isAttrErr = true := by
  have hcur : s.current_tokens = [] := List.isEmpty_iff.mp hemp
  obtain ⟨v, hv⟩ : ∃ v, dget? s.expired_tokens tok = some v := by
    cases h : dget? s.expired_tokens tok with
    | some v => exact ⟨v, rfl⟩
    | none => simp [dmemb, h] at hmem
  have hiv : token_clerk.is_valid s tok true now =
      .ok { reg := false, exp := v, old := true } s := by
    unfold token_clerk.is_valid token_clerk.clean_expired
    simp [hcur, dget?, hv]
  unfold token_clerk.unexpire token_clerk.unexpLoop
  rw [hiv]
  simp only [Bool.not_false, Bool.and_true, if_true]
  rw [register_attr s tok _ now hlen]
  rfl

theorem unregister_clr_attr (s : token_clerk σ) (tokens : List PyTok)
    (clean : Bool) (now : Int) :
    (token_clerk.unregister s tokens true clean now).isAttrErr = true := by
  unfold token_clerk.unregister
  simp [withLock_eq, Res.isAttrErr]

theorem clean_any_attr (s : token_clerk σ) (now : Int)
    (h : (s.current_tokens.any fun p => decide (now ≥ p.2)) = true) :
    (token_clerk.clean_expired s now).isAttrErr = true := by
  have hne : s.current_tokens.length ≠ 0 := by
    cases hc : s.current_tokens with
    | nil => rw [hc] at h; simp at h
    | cons p ps => simp [hc]
  rw [clean_err s now hne]
  rfl

theorem hexlify_length (bs : List Nat) :
    (hexlify bs).length = 2 * bs.length := by
  unfold hexlify
  induction bs with
  | nil => rfl
  | cons b bs ih =>
    simp only [List.foldr_cons]
    show (hexByte b ++ bs.foldr (fun b acc => hexByte b ++ acc) []).length
      = 2 * (b :: bs).length
    rw [List.length_append]
    have ih2 : (bs.foldr (fun b acc => hexByte b ++ acc) []).length
        = 2 * bs.length := ih
    rw [ih2]
    simp [hexByte, List.length_cons]
    ring

/-- Claim C1: the spec says every `register_new` call on a clerk whose
generator returns a correct-length token returns a `{tok, iat, exp}`
record with `exp - iat` equal to the TTL, inserts `tok` into the live map,
and an immediate `is_valid` reports it registered.  The code instead
raises AttributeError before any insertion: at the failing input — a fresh
`token_clerk(keyfunc=keyfun_r, keysize=2)` at clock 0 — `register_new()`
stops at `with self.lock:` inside `_register` (only the generator's index
has advanced), returning no record at all. -/
theorem C1_register_new_raises :
    token_clerk.register_new clerkC1 keyfun_r true 0 =
      .err .attributeError
        { current_tokens := [], expired_tokens := [],
          expire_after := DEFAULT_EXPIRY, keysize := 2, genst := 2 } := rfl

/-- Claim C2: the constructor defines the attribute `Lock` and never
`lock`, so every operation that reaches a map mutation raises
AttributeError at `with self.lock:` — `_register` on a correct-length
token, `unregister` with `clr=True`, `clean_expired` whenever an entry is
due for relocation, `_log_expired_tokens` and `_clear_expired_kept`
always, `unexpire` whenever a kept-expired correct-length token is up for
revival — and in particular `register_new` never returns normally for any
configuration whose generator returns a correct-length token. -/
theorem C2_lock_attribute_mismatch :
    (token_clerk.attrs.contains "Lock" = true ∧
     token_clerk.attrs.contains "lock" = false)
    ∧ (∀ (σ : Type) (s : token_clerk σ) (kf : KeyGen σ) (clean : Bool) (now : Int),
        (kf s.keysize s.genst).1.length = s.keysize →
        (token_clerk.register_new s kf clean now).isAttrErr = true)
    ∧ (∀ (σ : Type) (s : token_clerk σ) (tok : String) (ea? : Option Int) (now : Int),
        tok.length = s.keysize →
        (token_clerk._register s tok ea? now).isAttrErr = true)
    ∧ (∀ (σ : Type) (s : token_clerk σ) (tokens : List PyTok) (clean : Bool) (now : Int),
        (token_clerk.unregister s tokens true clean now).isAttrErr = true)
    ∧ (∀ (σ : Type) (s : token_clerk σ) (now : Int),
        (s.current_tokens.any fun p => decide (now ≥ p.2)) = true →
        (token_clerk.clean_expired s now).isAttrErr = true)
    ∧ (∀ (σ : Type) (s : token_clerk σ) (tokens : Dict),
        (token_clerk._log_expired_tokens s tokens).isAttrErr = true)
    ∧ (∀ (σ : Type) (s : token_clerk σ) (trash : Nat),
        (token_clerk._clear_expired_kept s trash).isAttrErr = true)
    ∧ (∀ (σ : Type) (s : token_clerk σ) (tok : String) (ea? : Option Int) (now : Int),
        s.current_tokens.isEmpty = true → dmemb s.expired_tokens tok = true →
        tok.length = s.keysize →
        (token_clerk.unexpire s [tok] ea? now).isAttrErr = true) := by
  refine ⟨⟨by decide, by decide⟩, ?_, ?_, ?_, ?_, ?_, ?_, ?_⟩
  · intro σ s kf clean now h
    exact register_new_attr s kf clean now h
  · intro σ s tok ea? now h
    rw [register_attr s tok ea? now h]; rfl
  · intro σ s tokens clean now
    exact unregister_clr_attr s tokens clean now
  · intro σ s now h
    exact clean_any_attr s now h
  · intro σ s tokens
    rw [log_eq]; rfl
  · intro σ s trash
    rw [clear_eq]; rfl
  · intro σ s tok ea? now h1 h2 h3
    exact unexpire_attr s tok ea? now h1 h2 h3

/-- Witness for C2: the hypotheses of every conditional conjunct are
satisfiable at concrete inputs, and the conclusions hold there. -/
theorem C2_lock_attribute_mismatch_witness :
    (token_clerk.register_new clerkC2w keyfun_r true 0).isAttrErr = true ∧
    (token_clerk._register clerkC2w "ab" none 0).isAttrErr = true ∧
    (token_clerk.clean_expired exC2clean 2).isAttrErr = true ∧
    (token_clerk.unexpire exC2unexp ["ab"] none 50).isAttrErr = true :=
  ⟨C2_lock_attribute_mismatch.2.1 Nat clerkC2w keyfun_r true 0 (by decide),
   C2_lock_attribute_mismatch.2.2.1 Nat clerkC2w "ab" none 0 (by decide),
   C2_lock_attribute_mismatch.2.2.2.2.1 Nat exC2clean 2 (by decide),
   C2_lock_attribute_mismatch.2.2.2.2.2.2.2 Nat exC2unexp "ab" none 50
     (by decide) (by decide) (by decide)⟩

/-- Claim C3: through every sequence of `register_new`, `unregister`,
`clean_expired`, `is_valid` and `unexpire` calls, for every key generator
and any `preset_tokens`, no token string is a member of both the live map
and the expired map.  (On this code the invariant holds degenerately:
since every map mutation raises AttributeError at `with self.lock:` before
it happens, the two maps never change from their initial contents, and the
expired map stays empty.) -/
theorem C3_live_expired_disjoint (σ : Type) (kf : KeyGen σ) (preset : Dict)
    (ea : Int) (ks : Nat) (g0 : σ) (ops : List Op) (tok : String) :
    (dmemb (runOps kf (token_clerk.init preset ea ks g0) ops).current_tokens tok &&
     dmemb (runOps kf (token_clerk.init preset ea ks g0) ops).expired_tokens tok)
      = false := by
  rw [runOps_expired_init]
  simp [dmemb, dget?]

/-- Claim C4: the spec says the expired map is capped at 30 entries, with
the smallest-expiry entries evicted first whenever an insertion would
exceed the bound.  At the failing input — a clerk already holding 30
kept-expired entries and an incoming batch of one — the insertion path
`_log_expired_tokens` instead raises AttributeError at
`_clear_expired_kept`'s `with self.lock:` before any eviction or
insertion happens.  (The source, moreover, compares against no capacity
anywhere: `_clear_expired_kept(trash=len(tokens))` would drop
`len(tokens)` smallest-expiry entries unconditionally, so the
bound-triggered eviction the claim describes is not implemented.) -/
theorem C4_expired_insertion_raises :
    exC4.expired_tokens.length = 30 ∧
    token_clerk._log_expired_tokens exC4 [("x", 99)] =
      .err .attributeError exC4 :=
  ⟨rfl, rfl⟩

/-- Claim C5 counterexample: with the default `clean=True`, `is_valid` on
a clerk holding one live token raises AttributeError (inside the sweep's
`_clear_expired_kept`) for the unknown token "b", instead of returning
`{reg: False, exp: 0, old: False}` as the claim states for every registry
state. -/
theorem C5_is_valid_raises_counterexample :
    token_clerk.is_valid clerkC5 "b" true 0 = .err .attributeError clerkC5 := rfl

/-- Claim C5 as amended: with the sweep disabled (`clean=False`),
`is_valid` returns, for every registry state and token string, exactly the
lookup result the claim describes — live hit, else expired hit, else the
all-default record — and never raises. -/
theorem C5_is_valid_lookup (σ : Type) (s : token_clerk σ) (tok : String)
    (now : Int) :
    token_clerk.is_valid s tok false now = .ok (validate_spec s tok) s := by
  unfold token_clerk.is_valid validate_spec
  cases h1 : dget? s.current_tokens tok with
  | some v => simp [h1]
  | none => cases h2 : dget? s.expired_tokens tok <;> simp [h1, h2]

/-- Claim C6: the spec says `are_valid` sweeps once and returns a map from
each input token to its `is_valid` result.  The code's dict comprehension
instead unpacks each `is_valid(token).items()` view — three pairs — into
the two targets `tok, inf`, so on any fresh clerk and any non-empty token
list it raises ValueError (`too many values to unpack`); moreover the
comprehension calls `is_valid(token)` with its default `clean=True`,
re-sweeping per element. -/
theorem C6_are_valid_unpack_raises :
    token_clerk.are_valid clerkC6 ["a"] true 0 = .err .valueError clerkC6 := rfl

/-- Claim C7 counterexample: with the default `clean=True` on a clerk
holding one live token, `unregister` applied to a non-string element
raises AttributeError out of the pre-sweep's lock access — not the
claimed InvalidArgument/TypeError. -/
theorem C7_unregister_attrerror_counterexample :
    token_clerk.unregister exC7 [PyTok.nonstr] false true 2 =
      .err .attributeError exC7 := rfl

/-- Claim C7 as amended: when the pre-sweep does not run (`clean=False`),
an `unregister` call whose token sequence contains a non-string element
fails with TypeError, and at the point of failure the live and expired
maps are exactly as they were before the call. -/
theorem C7_unregister_typeerror (σ : Type) (s : token_clerk σ)
    (tokens : List PyTok) (now : Int) (h : tokens.all PyTok.isStr = false) :
    token_clerk.unregister s tokens false false now = .err .typeError s := by
  have hne : tokens.isEmpty = false := by
    cases tokens with
    | nil => simp at h
    | cons t ts => rfl
  unfold token_clerk.unregister
  simp [hne, h]

/-- Witness for C7: a concrete call with a non-string element fails with
TypeError, state untouched. -/
theorem C7_unregister_typeerror_witness :
    token_clerk.unregister exC7 [PyTok.nonstr] false false 2 =
      .err .typeError exC7 :=
  C7_unregister_typeerror Nat exC7 [PyTok.nonstr] 2 (by decide)

/-- Claim C8: the spec says `unexpire` re-registers each kept-expired
token with a fresh `iat`/`exp` pair and removes it from the expired map.
At the failing input — a clerk whose expired map holds the correct-length
token "ab" and whose live map is empty — the code instead raises
AttributeError at `with self.lock:` inside `_register`, reviving
nothing. -/
theorem C8_unexpire_raises :
    token_clerk.unexpire exC8 ["ab"] none 50 = .err .attributeError exC8 := rfl

/-- Claim C9 counterexample: the claim says `random_key(n)` returns a
string of exactly `n` characters for every `n >= 1`; for `n = 1` it
hex-encodes `1 // 2 = 0` random bytes and returns the empty string. -/
theorem C9_random_key_odd_counterexample :
    (random_key urandZeros 1).length = 0 := rfl

/-- Claim C9 as amended: for every entropy source honouring the
`os.urandom` contract, `random_key(n)` returns a string of exactly
`2 * (n // 2)` characters — exactly `n` when `n` is even, `n - 1` when
`n` is odd. -/
theorem C9_random_key_length (urand : Nat → List Nat) (n : Nat)
    (h : ∀ k, (urand k).length = k) :
    (random_key urand n).length = 2 * (n / 2) := by
  unfold random_key
  rw [hexlify_length, h]

/-- Witness for C9: the all-zero source honours the contract, and a
request of 5 characters yields 4. -/
theorem C9_random_key_length_witness :
    (random_key urandZeros 5).length = 2 * (5 / 2) :=
  C9_random_key_length urandZeros 5 (fun k => by simp [urandZeros])

/-- Claim C10: the spec says a second `clean_expired` with no time passed
returns 0.  On this code the first call already raises AttributeError on
any non-empty live map — both when nothing is due (clock 0, expiry 1, the
raise comes from `_clear_expired_kept`) and when a relocation is due
(clock 2) — so the claimed second return value of 0 is never reached. -/
theorem C10_clean_expired_raises :
    token_clerk.clean_expired exC10 0 = .err .attributeError exC10 ∧
    token_clerk.clean_expired exC10 2 = .err .attributeError exC10 :=
  ⟨rfl, rfl⟩
